import Mathlib

/-
  Verification development for the kinetic-particles streaming/session core
  (repository source: src/App.tsx; the session-client module
  services/liveApiService.ts is referenced by App.tsx but is not part of the
  available sources, so its behaviour is modelled from the specification where
  a claim depends on it).
-/

namespace Kinetic

/-- The rendering configuration, from `ParticleState` in src/types
    (shape, colorPalette are enums, modelled as strings; the float fields are
    modelled as rationals — no claim depends on float rounding). -/
structure ParticleState where
  shape : String
  expansion : ℚ
  colorPalette : String
  speed : ℚ
  rotationSpeed : ℚ
deriving DecidableEq, Repr

/-- INITIAL_STATE from src/App.tsx lines 13-19. -/
def INITIAL_STATE : ParticleState :=
  { shape := "sphere"
  , expansion := 1
  , colorPalette := "neon"
  , speed := 1/2
  , rotationSpeed := 1/5 }

/-- A partial update (TypeScript `Partial<ParticleState>`): a sparse object
    carrying only the fields to change; `none` means the key is absent. -/
structure ParticleUpdate where
  shape : Option String := none
  expansion : Option ℚ := none
  colorPalette : Option String := none
  speed : Option ℚ := none
  rotationSpeed : Option ℚ := none
deriving DecidableEq, Repr

/-- The shallow field-wise merge `prev => ({ ...prev, ...update })` performed
    by handleStateUpdate (src/App.tsx lines 35-37): every key present in the
    update overwrites the previous value; absent keys are untouched. -/
def mergeUpdate (prev : ParticleState) (u : ParticleUpdate) : ParticleState :=
  { shape := u.shape.getD prev.shape
  , expansion := u.expansion.getD prev.expansion
  , colorPalette := u.colorPalette.getD prev.colorPalette
  , speed := u.speed.getD prev.speed
  , rotationSpeed := u.rotationSpeed.getD prev.rotationSpeed }

/-- Applying a finite sequence of partial updates in order. -/
def applyUpdates (s0 : ParticleState) (us : List ParticleUpdate) : ParticleState :=
  us.foldl mergeUpdate s0

/-- The value from the last element of the sequence that specified the field,
    if any (spec: "the value from the last Ui that specified it"). -/
def lastSpecified {α : Type} (l : List (Option α)) : Option α :=
  (l.filterMap id).getLast?

-- Helper lemmas for the last-write-wins characterisation.

theorem getLast?_cons_getD {α : Type} (l : List α) (a d : α) :
    (a :: l).getLast?.getD d = l.getLast?.getD a := by
  rcases l with _ | ⟨b, l⟩
  · rfl
  · rw [List.getLast?_cons_cons]
    cases h : (b :: l).getLast? with
    | none => simp at h
    | some x => rfl

theorem foldl_getD_eq_lastSpecified {α : Type} (l : List (Option α)) (d : α) :
    l.foldl (fun acc o => o.getD acc) d = (lastSpecified l).getD d := by
  induction l generalizing d with
  | nil => rfl
  | cons o l ih =>
      rcases o with _ | a
      · simpa [lastSpecified, List.filterMap] using ih d
      · simp only [List.foldl_cons, Option.getD_some, ih,
          lastSpecified, List.filterMap_cons]
        exact (getLast?_cons_getD _ a d).symm

theorem applyUpdates_shape (s0 : ParticleState) (us : List ParticleUpdate) :
    (applyUpdates s0 us).shape
      = (us.map ParticleUpdate.shape).foldl (fun acc o => o.getD acc) s0.shape := by
  induction us generalizing s0 with
  | nil => rfl
  | cons u us ih => simpa [applyUpdates, mergeUpdate] using ih (mergeUpdate s0 u)

theorem applyUpdates_expansion (s0 : ParticleState) (us : List ParticleUpdate) :
    (applyUpdates s0 us).expansion
      = (us.map ParticleUpdate.expansion).foldl (fun acc o => o.getD acc) s0.expansion := by
  induction us generalizing s0 with
  | nil => rfl
  | cons u us ih => simpa [applyUpdates, mergeUpdate] using ih (mergeUpdate s0 u)

theorem applyUpdates_colorPalette (s0 : ParticleState) (us : List ParticleUpdate) :
    (applyUpdates s0 us).colorPalette
      = (us.map ParticleUpdate.colorPalette).foldl (fun acc o => o.getD acc) s0.colorPalette := by
  induction us generalizing s0 with
  | nil => rfl
  | cons u us ih => simpa [applyUpdates, mergeUpdate] using ih (mergeUpdate s0 u)

theorem applyUpdates_speed (s0 : ParticleState) (us : List ParticleUpdate) :
    (applyUpdates s0 us).speed
      = (us.map ParticleUpdate.speed).foldl (fun acc o => o.getD acc) s0.speed := by
  induction us generalizing s0 with
  | nil => rfl
  | cons u us ih => simpa [applyUpdates, mergeUpdate] using ih (mergeUpdate s0 u)

theorem applyUpdates_rotationSpeed (s0 : ParticleState) (us : List ParticleUpdate) :
    (applyUpdates s0 us).rotationSpeed
      = (us.map ParticleUpdate.rotationSpeed).foldl (fun acc o => o.getD acc) s0.rotationSpeed := by
  induction us generalizing s0 with
  | nil => rfl
  | cons u us ih => simpa [applyUpdates, mergeUpdate] using ih (mergeUpdate s0 u)

/-! Session Client (LiveApiService).  The module services/liveApiService.ts is
    imported by src/App.tsx but its source is not available, so the client is
    modelled from the specification (§4.1, §5, §6). -/

/-- The Session Client lifecycle states of spec §4.1. -/
inductive ClientPhase
  | Idle
  | Connecting
  | Active
  | Closed
deriving DecidableEq, Repr

/-- Modelled from the spec: the internal state of the Session Client
    (LiveApiService, not under src/): its lifecycle phase plus the "closed"
    flag that §5 requires to be checked before every callback invocation. -/
structure ClientState where
  phase : ClientPhase
  closedFlag : Bool
deriving DecidableEq, Repr

/-- An inbound message pushed by the transport (spec §6). -/
inductive InboundMsg
  | stateUpdate (fields : ParticleUpdate)
  | errorMsg (reason : String)
deriving DecidableEq, Repr

/-- A State-Sink callback invocation: onStateUpdate or onError (spec §6);
    in App.tsx these are handleStateUpdate and handleError. -/
inductive CallbackEvent
  | onStateUpdate (fields : ParticleUpdate)
  | onError (reason : String)
deriving DecidableEq, Repr

/-- Modelled from the spec: sendFrame (spec §4.1) — legal only in Active,
    where it performs exactly one outbound unit of work; in any other state it
    is a no-op that raises no error, changes no state and sends nothing.
    The result pairs the new client state with the outbound payloads sent. -/
def sendFrame (c : ClientState) (payload : String) : ClientState × List String :=
  if c.phase = ClientPhase.Active then (c, [payload]) else (c, [])

/-- Modelled from the spec: disconnect (spec §4.1, §5) — tears the handle
    down, idempotently, and sets the closed flag so that no further callbacks
    can fire; it invokes no callback itself. -/
def clientDisconnect (_c : ClientState) : ClientState :=
  { phase := ClientPhase.Closed, closedFlag := true }

/-- Modelled from the spec: a successful connect() (spec §4.1, Idle →
    Connecting → Active); the client is reusable, so the closed flag is
    cleared for the new session. -/
def clientConnectSuccess (_c : ClientState) : ClientState :=
  { phase := ClientPhase.Active, closedFlag := false }

/-- Modelled from the spec: a failed connect() (spec §4.1, "On failure →
    Closed"); the error callback is invoked by the caller (App.tsx catch). -/
def clientConnectFail (_c : ClientState) : ClientState :=
  { phase := ClientPhase.Closed, closedFlag := true }

/-- Modelled from the spec: delivery of one inbound transport message
    (spec §4.1, §5, §6).  The closed flag is checked before any callback is
    invoked; a state-update message is forwarded verbatim to onStateUpdate; a
    recognized error message is forwarded to onError and the session
    transitions to Closed.  Returns the new client state and the callbacks
    fired. -/
def deliverInbound (c : ClientState) (m : InboundMsg) : ClientState × List CallbackEvent :=
  if c.closedFlag = true then (c, [])
  else
    match m with
    | InboundMsg.stateUpdate fields => (c, [CallbackEvent.onStateUpdate fields])
    | InboundMsg.errorMsg reason =>
        ({ phase := ClientPhase.Closed, closedFlag := c.closedFlag },
         [CallbackEvent.onError reason])

/-- Delivery of a finite sequence of in-flight inbound messages, accumulating
    every callback fired. -/
def deliverAll (c : ClientState) (msgs : List InboundMsg) : ClientState × List CallbackEvent :=
  msgs.foldl
    (fun acc m =>
      let r := deliverInbound acc.1 m
      (r.1, acc.2 ++ r.2))
    (c, [])

/-! The App component around the client (src/App.tsx). -/

/-- LiveConnectionState from src/types, owned by App.tsx (lines 23-27). -/
structure LiveConnectionState where
  isConnected : Bool
  isStreaming : Bool
  error : Option String
deriving DecidableEq, Repr

/-- The mutable state of the App component: the two useState cells plus the
    refs that the claims are about (frameIntervalRef as a Bool — whether the
    capture timer is scheduled — and streamRef as whether a MediaStream is
    held).  The client instance lives in liveApiRef. -/
structure AppState where
  particleState : ParticleState
  connection : LiveConnectionState
  client : ClientState
  timerActive : Bool
  streamAcquired : Bool
deriving DecidableEq, Repr

/-- The state right after mount (src/App.tsx lines 22-27, 43-44). -/
def initialApp : AppState :=
  { particleState := INITIAL_STATE
  , connection := { isConnected := false, isStreaming := false, error := none }
  , client := { phase := ClientPhase.Idle, closedFlag := false }
  , timerActive := false
  , streamAcquired := false }

/-- handleStateUpdate (src/App.tsx lines 35-37): merge the partial update
    into the current particle state. -/
def handleStateUpdate (app : AppState) (u : ParticleUpdate) : AppState :=
  { app with particleState := mergeUpdate app.particleState u }

/-- handleError (src/App.tsx lines 39-41):
    setConnection(prev => ({ ...prev, error, isConnected: false,
    isStreaming: false })). -/
def handleError (app : AppState) (e : String) : AppState :=
  { app with connection :=
      { app.connection with error := some e, isConnected := false, isStreaming := false } }

/-- The message passed to handleError in the catch of startStream
    (src/App.tsx line 86): err.message || 'Failed to access camera';
    an absent message is modelled as the empty string (falsy in JS). -/
def fallbackMsg (m : String) : String :=
  if m = "" then "Failed to access camera" else m

/-- The possible outcomes of the awaited steps of startStream: getUserMedia
    rejects, connect() rejects, or everything succeeds. -/
inductive StartOutcome
  | cameraFail (msg : String)
  | connectFail (msg : String)
  | success
deriving DecidableEq, Repr

/-- startStream (src/App.tsx lines 51-88): set isStreaming, acquire the
    camera, connect the client, set isConnected, and start the 500 ms frame
    interval; any rejection lands in the catch, which calls handleError. -/
def startStream (app : AppState) (o : StartOutcome) : AppState :=
  let app1 : AppState :=
    { app with connection := { isConnected := false, isStreaming := true, error := none } }
  match o with
  | StartOutcome.cameraFail msg => handleError app1 (fallbackMsg msg)
  | StartOutcome.connectFail msg =>
      let app2 : AppState :=
        { app1 with streamAcquired := true, client := clientConnectFail app1.client }
      handleError app2 (fallbackMsg msg)
  | StartOutcome.success =>
      let app2 : AppState :=
        { app1 with streamAcquired := true, client := clientConnectSuccess app1.client }
      { app2 with
          connection := { app2.connection with isConnected := true }
        , timerActive := true }

/-- stopStream (src/App.tsx lines 90-97): clear the frame interval, stop the
    media tracks, disconnect the client, and reset the connection state; it
    invokes no State-Sink callback, so the second component is the (empty)
    list of callbacks fired. -/
def stopStream (app : AppState) : AppState × List CallbackEvent :=
  ({ app with
      timerActive := false
    , streamAcquired := false
    , client := clientDisconnect app.client
    , connection := { isConnected := false, isStreaming := false, error := none } },
   [])

/-! The Capture Loop (the frame interval callback of startStream,
    src/App.tsx lines 72-83). -/

/-- The fixed camera constraint width (src/App.tsx line 56). -/
def cameraWidth : ℕ := 320

/-- The fixed camera constraint height (src/App.tsx line 56). -/
def cameraHeight : ℕ := 240

/-- The hidden canvas width (src/App.tsx line 211, also drawImage line 75). -/
def canvasWidth : ℕ := 320

/-- The hidden canvas height (src/App.tsx line 211, also drawImage line 75). -/
def canvasHeight : ℕ := 240

/-- The capture timer period in milliseconds (src/App.tsx line 82). -/
def framePeriodMs : ℕ := 500

/-- The JPEG encoding quality passed to toBlob (src/App.tsx line 81),
    the literal 0.6 as a rational. -/
def jpegQuality : ℚ := 6 / 10

/-- Modelled from the spec: blobToBase64 / toPortableText, the binary-to-text
    encoding exported by services/liveApiService.ts (not under src/).  Every
    claim treats the encoded payload as opaque, so it is modelled as the
    identity on the abstract blob contents. -/
def blobToBase64 (blob : String) : String := blob

/-- The environment of one tick of the frame interval callback
    (src/App.tsx lines 72-81): whether videoRef.current and liveApiRef.current
    are set, and the result of canvas.toBlob — `none` models a capture or
    encode failure (toBlob yielding a null blob). -/
structure TickInput where
  videoPresent : Bool
  clientPresent : Bool
  blob : Option String
deriving DecidableEq, Repr, Inhabited

/-- One tick of the interval callback: bail out if a ref is missing, draw the
    frame, encode it via toBlob, and — only when a blob was produced — convert
    it and hand it to sendVideoFrame.  Returns the payload passed to
    sendVideoFrame, or `none` when this tick skipped the send; the tick never
    raises. -/
def captureTick (i : TickInput) : Option String :=
  if i.videoPresent && i.clientPresent then
    match i.blob with
    | some b => some (blobToBase64 b)
    | none => none
  else none

/-- The capture loop: the body runs at every tick unconditionally — a failure
    at one tick has no influence on any other tick and never halts the
    loop. -/
def runTicks (ins : List TickInput) : List (Option String) :=
  ins.map captureTick

/-- A tick at which capture, encode and conversion all succeed. -/
def tickOk (i : TickInput) : Prop :=
  i.videoPresent = true ∧ i.clientPresent = true ∧ i.blob.isSome = true

instance (i : TickInput) : Decidable (tickOk i) := by
  unfold tickOk
  infer_instance

/-- One tick of the frame interval at app level: when the timer is scheduled
    and the tick produced a payload, sendVideoFrame is invoked on the client.
    Returns the new app state, whether sendVideoFrame was invoked, and the
    payloads actually put on the wire. -/
def appTick (app : AppState) (i : TickInput) : AppState × Bool × List String :=
  if app.timerActive = true then
    match captureTick i with
    | some payload =>
        let r := sendFrame app.client payload
        ({ app with client := r.1 }, true, r.2)
    | none => (app, false, [])
  else (app, false, [])

/-- Applying one fired callback to the App (the State Sink side). -/
def applyCallback (app : AppState) (cb : CallbackEvent) : AppState :=
  match cb with
  | CallbackEvent.onStateUpdate u => handleStateUpdate app u
  | CallbackEvent.onError e => handleError app e

/-- Arrival of one inbound transport message: the client processes it and the
    fired callbacks are applied to the App state. -/
def appDeliver (app : AppState) (m : InboundMsg) : AppState :=
  let r := deliverInbound app.client m
  r.2.foldl applyCallback { app with client := r.1 }

/-- One event of the App-level transition system: a startStream run (with its
    awaited outcomes), a stopStream, a capture tick, or an inbound message. -/
inductive Step : AppState → AppState → Prop
  | start (app : AppState) (o : StartOutcome) : Step app (startStream app o)
  | stop (app : AppState) : Step app (stopStream app).1
  | tick (app : AppState) (i : TickInput) : Step app (appTick app i).1
  | inbound (app : AppState) (m : InboundMsg) : Step app (appDeliver app m)

/-- The App states reachable from the state right after mount. -/
inductive Reachable : AppState → Prop
  | init : Reachable initialApp
  | step {a b : AppState} : Reachable a → Step a b → Reachable b

/-! Helper lemmas. -/

theorem foldl_handleStateUpdate_particleState (app : AppState) (us : List ParticleUpdate) :
    (us.foldl handleStateUpdate app).particleState = applyUpdates app.particleState us := by
  induction us generalizing app with
  | nil => rfl
  | cons u us ih => simpa [applyUpdates, handleStateUpdate] using ih (handleStateUpdate app u)

theorem sendFrame_fst (c : ClientState) (p : String) : (sendFrame c p).1 = c := by
  unfold sendFrame
  by_cases h : c.phase = ClientPhase.Active <;> simp [h]

theorem appTick_state (app : AppState) (i : TickInput) : (appTick app i).1 = app := by
  unfold appTick
  by_cases ht : app.timerActive = true
  · rw [if_pos ht]
    cases captureTick i with
    | some payload => simp [sendFrame_fst]
    | none => rfl
  · rw [if_neg ht]

theorem deliverFold_closed (msgs : List InboundMsg) (p : ClientState × List CallbackEvent)
    (h : p.1.closedFlag = true) :
    msgs.foldl
      (fun acc m =>
        let r := deliverInbound acc.1 m
        (r.1, acc.2 ++ r.2)) p = p := by
  induction msgs generalizing p with
  | nil => rfl
  | cons m msgs ih =>
      have hd : deliverInbound p.1 m = (p.1, []) := by simp [deliverInbound, h]
      simpa [hd] using ih p h

theorem deliverAll_closed (c : ClientState) (msgs : List InboundMsg)
    (h : c.closedFlag = true) :
    deliverAll c msgs = (c, []) :=
  deliverFold_closed msgs (c, []) h

/-- The invariant of spec §3: isConnected is true only while an active
    session handle exists. -/
def connInv (app : AppState) : Prop :=
  app.connection.isConnected = true → app.client.phase = ClientPhase.Active

theorem startStream_connInv (app : AppState) (o : StartOutcome) :
    connInv (startStream app o) := by
  cases o with
  | cameraFail msg => intro hc; cases hc
  | connectFail msg => intro hc; cases hc
  | success => intro hc; rfl

theorem appDeliver_connInv (app : AppState) (m : InboundMsg) (h : connInv app) :
    connInv (appDeliver app m) := by
  unfold appDeliver
  by_cases hc : app.client.closedFlag = true
  · have hd : deliverInbound app.client m = (app.client, []) := by
      simp [deliverInbound, hc]
    simpa [hd, connInv] using h
  · cases m with
    | stateUpdate u =>
        have hd : deliverInbound app.client (InboundMsg.stateUpdate u)
            = (app.client, [CallbackEvent.onStateUpdate u]) := by
          simp [deliverInbound, hc]
        simp only [hd, List.foldl_cons, List.foldl_nil, applyCallback]
        intro hcon
        exact h hcon
    | errorMsg e =>
        have hd : deliverInbound app.client (InboundMsg.errorMsg e)
            = ({ phase := ClientPhase.Closed, closedFlag := app.client.closedFlag },
               [CallbackEvent.onError e]) := by
          simp [deliverInbound, hc]
        simp only [hd, List.foldl_cons, List.foldl_nil, applyCallback]
        intro hcon
        cases hcon

theorem reachable_connInv (app : AppState) (h : Reachable app) : connInv app := by
  induction h with
  | init => intro hc; cases hc
  | step hr hs ih =>
      cases hs with
      | start o => exact startStream_connInv _ o
      | stop => intro hc; cases hc
      | tick i => rw [appTick_state]; exact ih
      | inbound m => exact appDeliver_connInv _ m ih

theorem runTicks_getD (ins : List TickInput) (j : ℕ) (hj : j < ins.length) :
    (runTicks ins).getD j none = captureTick (ins.getD j default) := by
  simp [runTicks, List.getD_eq_getElem?_getD, List.getElem?_map,
    List.getElem?_eq_getElem hj]

theorem captureTick_blob_none (i : TickInput) (h : i.blob = none) :
    captureTick i = none := by
  unfold captureTick
  rw [h]
  by_cases hv : (i.videoPresent && i.clientPresent) = true <;> simp [hv]

theorem captureTick_ok (i : TickInput) (h : tickOk i) :
    (captureTick i).isSome = true := by
  obtain ⟨h1, h2, h3⟩ := h
  cases hb : i.blob with
  | some b => simp [captureTick, h1, h2, hb]
  | none => rw [hb] at h3; cases h3

/-! Claim theorems. -/

/-- C1: for every initial ParticleState and every finite sequence of partial
    updates applied via handleStateUpdate, the resulting state holds, for each
    field, the value from the last update that specified that field, or its
    initial value if no update specified it; no field is ever deleted (every
    field of the resulting record is populated by this rule). -/
theorem handleStateUpdate_last_write_wins (app : AppState) (us : List ParticleUpdate) :
    ((us.foldl handleStateUpdate app).particleState.shape
        = (lastSpecified (us.map ParticleUpdate.shape)).getD app.particleState.shape)
    ∧ ((us.foldl handleStateUpdate app).particleState.expansion
        = (lastSpecified (us.map ParticleUpdate.expansion)).getD app.particleState.expansion)
    ∧ ((us.foldl handleStateUpdate app).particleState.colorPalette
        = (lastSpecified (us.map ParticleUpdate.colorPalette)).getD app.particleState.colorPalette)
    ∧ ((us.foldl handleStateUpdate app).particleState.speed
        = (lastSpecified (us.map ParticleUpdate.speed)).getD app.particleState.speed)
    ∧ ((us.foldl handleStateUpdate app).particleState.rotationSpeed
        = (lastSpecified (us.map ParticleUpdate.rotationSpeed)).getD app.particleState.rotationSpeed) := by
  rw [foldl_handleStateUpdate_particleState]
  refine ⟨?_, ?_, ?_, ?_, ?_⟩
  · rw [applyUpdates_shape, foldl_getD_eq_lastSpecified]
  · rw [applyUpdates_expansion, foldl_getD_eq_lastSpecified]
  · rw [applyUpdates_colorPalette, foldl_getD_eq_lastSpecified]
  · rw [applyUpdates_speed, foldl_getD_eq_lastSpecified]
  · rw [applyUpdates_rotationSpeed, foldl_getD_eq_lastSpecified]

/-- C2: in every Session Client state other than Active, sendFrame with any
    payload is a no-op: the client state is unchanged, no outbound payload is
    sent, and (being a total function) no exception is raised. -/
theorem sendFrame_non_active_noop (c : ClientState) (payload : String)
    (h : c.phase ≠ ClientPhase.Active) :
    sendFrame c payload = (c, []) := by
  simp [sendFrame, h]

theorem sendFrame_non_active_noop_witness :
    ({ phase := ClientPhase.Idle, closedFlag := false } : ClientState).phase
        ≠ ClientPhase.Active
    ∧ sendFrame { phase := ClientPhase.Idle, closedFlag := false } "frame"
        = ({ phase := ClientPhase.Idle, closedFlag := false }, []) :=
  ⟨by decide, sendFrame_non_active_noop _ "frame" (by decide)⟩

/-- C3: stopStream cancels the capture timer, and once it has returned no
    onStateUpdate or onError callback ever fires again: delivering any
    sequence of in-flight inbound messages to the disconnected client fires no
    callback, and an in-flight frame submission completing late performs no
    outbound call. -/
theorem stopStream_no_callbacks_after (app : AppState) (msgs : List InboundMsg)
    (payload : String) :
    (stopStream app).1.timerActive = false
    ∧ (deliverAll (stopStream app).1.client msgs).2 = []
    ∧ (sendFrame (stopStream app).1.client payload).2 = [] := by
  refine ⟨rfl, ?_, rfl⟩
  rw [deliverAll_closed _ msgs rfl]

/-- C4: in every reachable app state, handleError forces isConnected to
    false, stopStream forces isConnected to false, and isConnected is true
    only while the session handle is Active. -/
theorem reachable_isConnected_invariant (app : AppState) (h : Reachable app) :
    (∀ e, (handleError app e).connection.isConnected = false)
    ∧ (stopStream app).1.connection.isConnected = false
    ∧ (app.connection.isConnected = true → app.client.phase = ClientPhase.Active) :=
  ⟨fun _ => rfl, rfl, reachable_connInv app h⟩

theorem reachable_isConnected_invariant_witness :
    Reachable initialApp
    ∧ ((∀ e, (handleError initialApp e).connection.isConnected = false)
       ∧ (stopStream initialApp).1.connection.isConnected = false
       ∧ (initialApp.connection.isConnected = true
            → initialApp.client.phase = ClientPhase.Active)) :=
  ⟨Reachable.init, reachable_isConnected_invariant initialApp Reachable.init⟩

/-- C5: a tick at which the encode fails (toBlob yields a null blob) performs
    no sendFrame call and raises no error, and the loop does not halt: every
    tick still runs (the output has one entry per tick), and for a single
    forced failure at tick k, ticks k-1 and k+1 still invoke sendFrame. -/
theorem capture_tick_failure_isolated (ins : List TickInput) (k : ℕ)
    (hk : 1 ≤ k) (hlen : k + 1 < ins.length)
    (_hvideo : (ins.getD k default).videoPresent = true)
    (_hclient : (ins.getD k default).clientPresent = true)
    (hfail : (ins.getD k default).blob = none)
    (hok1 : tickOk (ins.getD (k - 1) default))
    (hok2 : tickOk (ins.getD (k + 1) default)) :
    (runTicks ins).length = ins.length
    ∧ (runTicks ins).getD k none = none
    ∧ ((runTicks ins).getD (k - 1) none).isSome = true
    ∧ ((runTicks ins).getD (k + 1) none).isSome = true := by
  have hbk : k < ins.length := by omega
  have hb1 : k - 1 < ins.length := by omega
  refine ⟨by simp [runTicks], ?_, ?_, ?_⟩
  · rw [runTicks_getD ins k hbk]
    exact captureTick_blob_none _ hfail
  · rw [runTicks_getD ins (k - 1) hb1]
    exact captureTick_ok _ hok1
  · rw [runTicks_getD ins (k + 1) hlen]
    exact captureTick_ok _ hok2

theorem capture_tick_failure_isolated_witness :
    (1 ≤ 1 ∧ 1 + 1 < 3)
    ∧ ((runTicks
          [⟨true, true, some "f0"⟩, ⟨true, true, none⟩, ⟨true, true, some "f2"⟩]).length = 3
       ∧ (runTicks
          [⟨true, true, some "f0"⟩, ⟨true, true, none⟩, ⟨true, true, some "f2"⟩]).getD 1 none
            = none
       ∧ ((runTicks
          [⟨true, true, some "f0"⟩, ⟨true, true, none⟩, ⟨true, true, some "f2"⟩]).getD 0 none).isSome
            = true
       ∧ ((runTicks
          [⟨true, true, some "f0"⟩, ⟨true, true, none⟩, ⟨true, true, some "f2"⟩]).getD 2 none).isSome
            = true) :=
  ⟨⟨by decide, by decide⟩, by
    have h := capture_tick_failure_isolated
      [⟨true, true, some "f0"⟩, ⟨true, true, none⟩, ⟨true, true, some "f2"⟩] 1
      (by decide) (by decide) (by decide) (by decide) (by decide)
      (by decide) (by decide)
    simpa using h⟩

/-- C6: when startStream fails — getUserMedia or connect() rejecting — the
    error callback stores the failure's message (or 'Failed to access camera'
    when the message is absent) in ConnectionState.error, isConnected stays
    false, and the session never reaches Active. -/
theorem startStream_failure_reports_error (app : AppState) (msg : String)
    (h : app.client.phase ≠ ClientPhase.Active) :
    ((startStream app (StartOutcome.cameraFail msg)).connection.error = some (fallbackMsg msg)
      ∧ (startStream app (StartOutcome.cameraFail msg)).connection.isConnected = false
      ∧ (startStream app (StartOutcome.cameraFail msg)).client.phase ≠ ClientPhase.Active)
    ∧ ((startStream app (StartOutcome.connectFail msg)).connection.error = some (fallbackMsg msg)
      ∧ (startStream app (StartOutcome.connectFail msg)).connection.isConnected = false
      ∧ (startStream app (StartOutcome.connectFail msg)).client.phase ≠ ClientPhase.Active) := by
  refine ⟨⟨rfl, rfl, ?_⟩, ⟨rfl, rfl, fun hc => ClientPhase.noConfusion hc⟩⟩
  exact h

theorem startStream_failure_reports_error_witness :
    initialApp.client.phase ≠ ClientPhase.Active
    ∧ (startStream initialApp (StartOutcome.connectFail "permission denied")).connection.error
        = some "permission denied"
    ∧ (startStream initialApp (StartOutcome.connectFail "permission denied")).connection.isConnected
        = false
    ∧ (startStream initialApp (StartOutcome.cameraFail "")).connection.error
        = some "Failed to access camera" :=
  ⟨by decide,
   by
    have h := (startStream_failure_reports_error initialApp "permission denied"
      (by decide)).2
    simpa [fallbackMsg] using h.1,
   ((startStream_failure_reports_error initialApp "permission denied"
      (by decide)).2).2.1,
   by
    have h := (startStream_failure_reports_error initialApp ""
      (by decide)).1
    simpa [fallbackMsg] using h.1⟩

/-- C7: stopStream is idempotent: from every app state it yields the reset
    connection state with the client Closed, it fires no callbacks, and a
    second consecutive call returns exactly the same state with no additional
    callbacks. -/
theorem stopStream_idempotent (app : AppState) :
    stopStream (stopStream app).1 = ((stopStream app).1, [])
    ∧ (stopStream app).1.connection
        = { isConnected := false, isStreaming := false, error := none }
    ∧ (stopStream app).1.client.phase = ClientPhase.Closed
    ∧ (stopStream app).2 = [] :=
  ⟨rfl, rfl, rfl, rfl⟩

/-- C8: the capture pipeline constants are exactly the prescribed fixed
    values: 320x240 camera and canvas resolution, 500 ms timer period, and
    JPEG quality 0.6; they are literals in the source, not configuration. -/
theorem capture_constants_fixed :
    cameraWidth = 320 ∧ cameraHeight = 240
    ∧ canvasWidth = 320 ∧ canvasHeight = 240
    ∧ framePeriodMs = 500 ∧ jpegQuality = 6 / 10 :=
  ⟨rfl, rfl, rfl, rfl, rfl, rfl⟩

/-- C9: handleError modifies only the connection fields (error, isConnected,
    isStreaming); it leaves the particle state, the client, the capture timer
    and the media stream untouched, so a subsequent successful capture tick
    still invokes sendVideoFrame. -/
theorem handleError_frame_effect (app : AppState) (e : String) (i : TickInput)
    (ht : app.timerActive = true) (hok : tickOk i) :
    (handleError app e).particleState = app.particleState
    ∧ (handleError app e).client = app.client
    ∧ (handleError app e).timerActive = app.timerActive
    ∧ (handleError app e).streamAcquired = app.streamAcquired
    ∧ (handleError app e).connection.error = some e
    ∧ (handleError app e).connection.isConnected = false
    ∧ (handleError app e).connection.isStreaming = false
    ∧ (appTick (handleError app e) i).2.1 = true := by
  refine ⟨rfl, rfl, rfl, rfl, rfl, rfl, rfl, ?_⟩
  obtain ⟨h1, h2, h3⟩ := hok
  unfold appTick
  rw [if_pos (show (handleError app e).timerActive = true from ht)]
  cases hb : i.blob with
  | some b => simp [captureTick, h1, h2, hb]
  | none => rw [hb] at h3; cases h3

theorem handleError_frame_effect_witness :
    ({ initialApp with timerActive := true } : AppState).timerActive = true
    ∧ tickOk ⟨true, true, some "frame"⟩
    ∧ (appTick (handleError { initialApp with timerActive := true } "rate limited")
         ⟨true, true, some "frame"⟩).2.1 = true :=
  ⟨rfl, by decide,
   (handleError_frame_effect { initialApp with timerActive := true } "rate limited"
      ⟨true, true, some "frame"⟩ rfl (by decide)).2.2.2.2.2.2.2⟩

/-- C10: stopStream leaves the ParticleState unchanged — it is never reset to
    INITIAL_STATE on disconnect — and a subsequent startStream (any outcome)
    also leaves it unchanged, so the last merged configuration persists across
    teardown and restart. -/
theorem stopStream_preserves_particleState (app : AppState) :
    (stopStream app).1.particleState = app.particleState
    ∧ ∀ o : StartOutcome,
        (startStream (stopStream app).1 o).particleState = app.particleState :=
  ⟨rfl, fun o => by cases o <;> rfl⟩

end Kinetic
